import Mathlib

/-!
Verification of the preference-driven ranking and feedback-learning subsystem
of the Douyin-Downloader repository: the incremental tag/attribute preference
model (`src/db.js`, `src/db_mysql.js`), the vector profile store
(`src/vectorStore.js`) and the blending/feedback orchestration
(`src/preferenceService.js`), embedded shallowly over lists and real numbers.
JavaScript numbers are modelled as real numbers; the SQLite/MySQL tables are
modelled as association lists with the uniqueness invariants their schemas
declare (`UNIQUE(feature_key, feature_value)`, primary keys on `aweme_id` and
`user_id`).
-/

namespace Douyin

/-- Values that occur in a stored `ai_features` JSON object: the merged
feature object built by `aiAnalyzer.mergeFrameFeatures` stores strings
(`primary_scene_type`, `description_summary`) and arrays of strings
(`primary_colors`, `primary_styles`, `top_tags`, `all_scene_types`). -/
inductive AiVal where
  | str (v : String)
  | arr (vs : List String)
deriving DecidableEq

/-- A stored `ai_features` JSON object, as a key/value association list. -/
abbrev AiObj := List (String × AiVal)

/-- JavaScript property read `o[k]` on an `ai_features` object. -/
def jsGet (o : AiObj) (k : String) : Option AiVal :=
  (o.find? (fun p => p.1 == k)).map (fun p => p.2)

/-- JavaScript property assignment `features[k] = v` into a string-valued
object: a later assignment to an existing key overwrites in place, a fresh
key is appended (JS objects keep string keys in insertion order). -/
def objAssign (o : List (String × String)) (k v : String) : List (String × String) :=
  if o.any (fun p => p.1 == k) then
    o.map (fun p => if p.1 == k then (k, v) else p)
  else o ++ [(k, v)]

/-- One row of the `user_preferences` table (`db.js` schema): the pair
`(feature_key, feature_value)` is UNIQUE, with a running `preference_score`
and `sample_count`. -/
structure PrefRow where
  feature_key : String
  feature_value : String
  preference_score : ℝ
  sample_count : ℕ

/-- State of the SQLite database `db.js` as far as the core reads it: the
`video_features` table (one row per `aweme_id`, whose `ai_features` column
may be NULL) and the `user_preferences` table. -/
structure DbState where
  features : List (String × Option AiObj)
  prefs : List PrefRow

/-- `db.getVideoFeatures(aweme_id)`: `SELECT * FROM video_features WHERE
aweme_id = ?`. `none` is a missing row; `some none` is a row whose
`ai_features` column is NULL (the caller treats both as absent). -/
def getVideoFeatures (db : DbState) (aweme_id : String) : Option (Option AiObj) :=
  (db.features.find? (fun p => p.1 == aweme_id)).map (fun p => p.2)

/-- `db.updateUserPreference(featureKey, featureValue, scoreDelta)`
(`db.js` lines 1151-1201): if a row for the pair exists, replace its score by
the running weighted mean `(score * sample_count + scoreDelta) /
(sample_count + 1)` and bump `sample_count`; otherwise insert a fresh row
with score `scoreDelta` and `sample_count = 1`. The UNIQUE constraint makes
the first matching row the only one. -/
noncomputable def updateUserPreference : List PrefRow → String → String → ℝ → List PrefRow
  | [], k, v, w => [⟨k, v, w, 1⟩]
  | r :: rest, k, v, w =>
    if r.feature_key == k && r.feature_value == v then
      ⟨k, v, (r.preference_score * r.sample_count + w) / (r.sample_count + 1),
        r.sample_count + 1⟩ :: rest
    else
      r :: updateUserPreference rest k v w

/-- Read access used by the statements below: the stored
`(preference_score, sample_count)` for a `(feature_key, feature_value)`
pair, `none` when no row matches. -/
def lookupPref (s : List PrefRow) (k v : String) : Option (ℝ × ℕ) :=
  (s.find? (fun r => r.feature_key == k && r.feature_value == v)).map
    (fun r => (r.preference_score, r.sample_count))

/-- One step of the `preferences.forEach` accumulation in
`db.calculateVideoPreferenceScore`: a stored preference row contributes
`preference_score * Math.log(sample_count + 1)` to the running total (and
bumps the match count) exactly when its score is positive and the raw
`ai_features` object has the row's `feature_key` bound to the string
`feature_value` (JS strict equality `===`, so an array value never matches). -/
noncomputable def prefScoreStep (aiFeatures : AiObj) (acc : ℝ × ℕ) (pref : PrefRow) : ℝ × ℕ :=
  if 0 < pref.preference_score ∧
      jsGet aiFeatures pref.feature_key = some (AiVal.str pref.feature_value) then
    (acc.1 + pref.preference_score * Real.log (pref.sample_count + 1), acc.2 + 1)
  else acc

/-- `db.calculateVideoPreferenceScore(aweme_id)` (`db.js` lines 1225-1259):
returns 0 when the item has no features row, a NULL `ai_features` column, or
the preference table is empty; otherwise sums the log-weighted scores of the
matching positive preference rows and divides by the number of matches
(0 when nothing matched). -/
noncomputable def calculateVideoPreferenceScore (db : DbState) (aweme_id : String) : ℝ :=
  match getVideoFeatures db aweme_id with
  | none => 0
  | some none => 0
  | some (some aiFeatures) =>
    if db.prefs.isEmpty then 0
    else
      let r := db.prefs.foldl (prefScoreStep aiFeatures) (0, 0)
      if 0 < r.2 then r.1 / (r.2 : ℝ) else 0

/-- State of the vector SQLite database `vectorStore.js`: the
`video_vectors` table (`aweme_id` PRIMARY KEY) and the `user_profiles` row
for the single `'default'` user, holding `(vector, count)`. -/
structure VectorState where
  vectors : List (String × List ℝ)
  profile : Option (List ℝ × ℕ)

/-- `vectorStore.getVector(awemeId)`: the stored embedding, or `null`. -/
def getVector (vs : VectorState) (aweme_id : String) : Option (List ℝ) :=
  (vs.vectors.find? (fun p => p.1 == aweme_id)).map (fun p => p.2)

/-- `vectorStore.getUserProfileVector()`: the stored profile vector, or
`null` when no `user_profiles` row exists. -/
def getUserProfileVector (vs : VectorState) : Option (List ℝ) :=
  vs.profile.map (fun p => p.1)

/-- The per-dimension update `currentVector.map((val, idx) => (val * count +
newVector[idx]) / (count + 1))` of `vectorStore.updateUserProfile`. The two
vectors are contractually of the same dimension (spec 4.2); an out-of-range
index reads 0 here where JavaScript would produce NaN. -/
noncomputable def profileFold (current : List ℝ) (count : ℕ) (newVector : List ℝ) : List ℝ :=
  current.enum.map (fun p => (p.2 * (count : ℝ) + newVector.getD p.1 0) / ((count : ℝ) + 1))

/-- `vectorStore.updateUserProfile(newVector)` (`vectorStore.js` lines
148-192): with no stored profile the new vector is stored with count 1;
otherwise the stored vector moves to the running per-dimension mean and the
count is bumped. -/
noncomputable def updateUserProfile (vs : VectorState) (newVector : List ℝ) : VectorState :=
  match vs.profile with
  | none => { vs with profile := some (newVector, 1) }
  | some (currentVector, count) =>
    { vs with profile := some (profileFold currentVector count newVector, count + 1) }

/-- Configuration of `PreferenceService` (`preferenceService.js` lines
10-17): the like/dislike weights and the blend weight of the vector score. -/
structure Config where
  likeWeight : ℝ
  dislikeWeight : ℝ
  vectorWeight : ℝ

/-- The default configuration: `likeWeight = 1.0`, `dislikeWeight = -1.0`,
`vectorWeight = 0.7` (the fallbacks of the `parseFloat(process.env...) ||`
expressions in the constructor). -/
noncomputable def defaultConfig : Config := ⟨1, -1, 0.7⟩

/-- `preferenceService.extractFeaturesFromVideo(videoFeatures)`
(`preferenceService.js` lines 22-53): builds the flat attribute object from
a stored `ai_features` object: a truthy `primary_scene_type` string becomes
`scene_type`; each entry `x` of the non-empty arrays `primary_colors`,
`primary_styles` and `top_tags` becomes `color_x` / `style_x` / `tag_x`
(value equal to the entry itself). A missing or non-object input yields the
empty object. -/
def extractFeaturesFromVideo (videoFeatures : Option AiObj) : List (String × String) :=
  match videoFeatures with
  | none => []
  | some o =>
    let f1 : List (String × String) :=
      match jsGet o "primary_scene_type" with
      | some (AiVal.str v) => if v ≠ "" then objAssign [] "scene_type" v else []
      | _ => []
    let f2 :=
      match jsGet o "primary_colors" with
      | some (AiVal.arr cs) =>
        if cs.length > 0 then
          cs.foldl (fun acc c => objAssign acc ("color_" ++ c) c) f1
        else f1
      | _ => f1
    let f3 :=
      match jsGet o "primary_styles" with
      | some (AiVal.arr ss) =>
        if ss.length > 0 then
          ss.foldl (fun acc s => objAssign acc ("style_" ++ s) s) f2
        else f2
      | _ => f2
    match jsGet o "top_tags" with
    | some (AiVal.arr ts) =>
      if ts.length > 0 then
        ts.foldl (fun acc t => objAssign acc ("tag_" ++ t) t) f3
      else f3
    | _ => f3

/-- Modelled from the spec: `aiAnalyzer.cosineSimilarity`, called at
`preferenceService.js` line 155, lives in `aiAnalyzer.js`, which is not part
of the provided sources (only its feature-merging half is). The spec defines
it as `dot(a,b) / (‖a‖ * ‖b‖)`, with result 0 when either vector's norm is
zero. -/
noncomputable def cosineSimilarity (a b : List ℝ) : ℝ :=
  let dot := (List.zipWith (fun x y => x * y) a b).sum
  let normA := Real.sqrt ((a.map (fun x => x ^ 2)).sum)
  let normB := Real.sqrt ((b.map (fun x => x ^ 2)).sum)
  if normA = 0 ∨ normB = 0 then 0 else dot / (normA * normB)

/-- The vector half of `preferenceService.getVideoRecommendationScore`: the
cosine similarity of the stored user profile vector and the item's stored
vector, or the initial value 0 when either is `null`. -/
noncomputable def vectorScoreOf (vs : VectorState) (aweme_id : String) : ℝ :=
  match getUserProfileVector vs, getVector vs aweme_id with
  | some userVector, some videoVector => cosineSimilarity userVector videoVector
  | _, _ => 0

/-- `preferenceService.getVideoRecommendationScore(aweme_id)`
(`preferenceService.js` lines 143-184): the tag score blended with the
normalized vector score; when the vector score is (still) 0 the tag score is
returned unchanged (`if (vectorScore === 0) return tagScore`). -/
noncomputable def getVideoRecommendationScore (cfg : Config) (db : DbState) (vs : VectorState)
    (aweme_id : String) : ℝ :=
  let tagScore := calculateVideoPreferenceScore db aweme_id
  let vectorScore := vectorScoreOf vs aweme_id
  if vectorScore = 0 then tagScore
  else tagScore * (1 - cfg.vectorWeight) + ((vectorScore + 1) * 5) * cfg.vectorWeight

/-- `preferenceService.processFeedback(aweme_id, feedbackType)`
(`preferenceService.js` lines 58-109): fails (false, nothing written) when
the item has no features row or a NULL `ai_features` column; otherwise
updates the preference row of every extracted attribute pair with the like
weight on `'like'` and with the dislike weight on every other feedback type,
then — only for `'like'` and only when the item has a stored vector —
updates the user profile, and returns true. -/
noncomputable def processFeedback (cfg : Config) (db : DbState) (vs : VectorState)
    (aweme_id : String) (feedbackType : String) : Bool × DbState × VectorState :=
  match getVideoFeatures db aweme_id with
  | none => (false, db, vs)
  | some none => (false, db, vs)
  | some (some aiFeatures) =>
    let features := extractFeaturesFromVideo (some aiFeatures)
    let weight := if feedbackType = "like" then cfg.likeWeight else cfg.dislikeWeight
    let db' :=
      { db with prefs := features.foldl (fun s kv => updateUserPreference s kv.1 kv.2 weight) db.prefs }
    let vs' :=
      if feedbackType = "like" then
        match getVector vs aweme_id with
        | some videoVector => updateUserProfile vs videoVector
        | none => vs
      else vs
    (true, db', vs')

namespace Mysql

/-- `db_mysql.updateUserPreference(featureKey, featureValue, scoreDelta)`
(`db_mysql.js` lines 775-803): the MySQL-backed variant — SELECT the unique
row for the pair, then either UPDATE it to the running weighted mean or
INSERT a fresh row with score `scoreDelta` and `sample_count = 1`. -/
noncomputable def updateUserPreference : List PrefRow → String → String → ℝ → List PrefRow
  | [], k, v, w => [⟨k, v, w, 1⟩]
  | r :: rest, k, v, w =>
    if r.feature_key == k && r.feature_value == v then
      ⟨k, v, (r.preference_score * r.sample_count + w) / (r.sample_count + 1),
        r.sample_count + 1⟩ :: rest
    else
      r :: updateUserPreference rest k v w

/-- `db_mysql.calculateVideoPreferenceScore(aweme_id)` (`db_mysql.js` lines
818-849): the MySQL-backed variant of the tag match score, with the same
guards, the same `preference_score > 0 && aiFeatures[key] === value` match
test, the same `score * Math.log(sample_count + 1)` accumulation and the
same `totalScore / matchCount` normalization. -/
noncomputable def calculateVideoPreferenceScore (db : DbState) (aweme_id : String) : ℝ :=
  match getVideoFeatures db aweme_id with
  | none => 0
  | some none => 0
  | some (some aiFeatures) =>
    if db.prefs.isEmpty then 0
    else
      let r := db.prefs.foldl (prefScoreStep aiFeatures) (0, 0)
      if 0 < r.2 then r.1 / (r.2 : ℝ) else 0

end Mysql

/-- An `ai_features` object as `aiAnalyzer.mergeFrameFeatures` produces it,
reduced to the one field that matters for the key-mismatch analysis. -/
def c3Obj : AiObj := [("primary_scene_type", AiVal.str "indoor")]

/-- Two items (`v1`, `v2`) with identical stored features and an empty
preference table. -/
noncomputable def c3Db : DbState := ⟨[("v1", some c3Obj), ("v2", some c3Obj)], []⟩

/-- An empty vector store. -/
noncomputable def c3Vs : VectorState := ⟨[], none⟩

/-! ### Running-mean lemmas for the preference table (C1) -/

theorem lookupPref_update_of_none (s : List PrefRow) (k v : String) (w : ℝ)
    (h : lookupPref s k v = none) :
    lookupPref (updateUserPreference s k v w) k v = some (w, 1) := by
  induction s with
  | nil => simp [lookupPref, updateUserPreference]
  | cons r rest ih =>
    rw [lookupPref, List.find?] at h
    cases hm : (r.feature_key == k && r.feature_value == v) with
    | true => rw [hm] at h; simp at h
    | false =>
      rw [hm] at h
      rw [updateUserPreference, if_neg (by simp [hm])]
      rw [lookupPref, List.find?, hm]
      exact ih h

theorem lookupPref_update_of_some (s : List PrefRow) (k v : String) (w : ℝ) (sc : ℝ) (n : ℕ)
    (h : lookupPref s k v = some (sc, n)) :
    lookupPref (updateUserPreference s k v w) k v =
      some ((sc * n + w) / (n + 1), n + 1) := by
  induction s with
  | nil => simp [lookupPref] at h
  | cons r rest ih =>
    rw [lookupPref, List.find?] at h
    cases hm : (r.feature_key == k && r.feature_value == v) with
    | true =>
      rw [hm] at h
      have h' : (r.preference_score, r.sample_count) = (sc, n) := by simpa using h
      have hsc : r.preference_score = sc := congrArg Prod.fst h'
      have hn : r.sample_count = n := congrArg Prod.snd h'
      rw [updateUserPreference, if_pos hm]
      rw [lookupPref, List.find?]
      simp [hsc, hn]
    | false =>
      rw [hm] at h
      rw [updateUserPreference, if_neg (by simp [hm])]
      rw [lookupPref, List.find?, hm]
      exact ih h

theorem foldl_updateUserPreference_mean (k v : String) :
    ∀ (ws : List ℝ) (s : List PrefRow) (S : ℝ) (n : ℕ), 0 < n →
      lookupPref s k v = some (S / (n : ℝ), n) →
      lookupPref (ws.foldl (fun t w => updateUserPreference t k v w) s) k v =
        some ((S + ws.sum) / ((n : ℝ) + ws.length), n + ws.length) := by
  intro ws
  induction ws with
  | nil => intro s S n hn h; simpa using h
  | cons w ws ih =>
    intro s S n hn h
    have hcast : ((n : ℝ)) ≠ 0 := Nat.cast_ne_zero.mpr (by omega)
    have h1 := lookupPref_update_of_some s k v w (S / (n : ℝ)) n h
    have h2 : lookupPref (updateUserPreference s k v w) k v =
        some ((S + w) / ((n + 1 : ℕ) : ℝ), n + 1) := by
      rw [h1]
      congr 2
      rw [div_mul_cancel₀ S hcast]
      push_cast
      ring
    have h3 := ih (updateUserPreference s k v w) (S + w) (n + 1) (by omega) h2
    rw [List.foldl_cons, h3]
    simp only [List.sum_cons, List.length_cons]
    congr 2
    · push_cast; ring
    · omega

/-- C1: starting from a state with no row for the pair `(k, v)`, applying a
sequence of feedback events with weights `ws` to that pair through
`updateUserPreference` leaves a stored row whose score is the arithmetic
mean of `ws` and whose `sample_count` is the number of events. -/
theorem updateUserPreference_running_mean (s0 : List PrefRow) (k v : String) (ws : List ℝ)
    (h0 : lookupPref s0 k v = none) (hne : ws ≠ []) :
    lookupPref (ws.foldl (fun t w => updateUserPreference t k v w) s0) k v =
      some (ws.sum / (ws.length : ℝ), ws.length) := by
  cases ws with
  | nil => exact absurd rfl hne
  | cons w ws =>
    have h1 := lookupPref_update_of_none s0 k v w h0
    have h1' : lookupPref (updateUserPreference s0 k v w) k v =
        some (w / ((1 : ℕ) : ℝ), 1) := by simpa using h1
    have h2 := foldl_updateUserPreference_mean k v ws (updateUserPreference s0 k v w) w 1
      (by omega) h1'
    rw [List.foldl_cons, h2]
    simp only [List.sum_cons, List.length_cons]
    congr 2
    · push_cast; ring
    · omega

/-- C1 witness: three feedback events of weights 1, 2 and 3 on the pair
`(scene_type, indoor)` leave score `(1 + 2 + 3) / 3 = 2` and sample count 3. -/
theorem updateUserPreference_running_mean_witness :
    lookupPref (([1, 2, 3] : List ℝ).foldl
        (fun t w => updateUserPreference t "scene_type" "indoor" w) [])
      "scene_type" "indoor" = some (2, 3) := by
  have h := updateUserPreference_running_mean [] "scene_type" "indoor" [1, 2, 3]
    rfl (by simp)
  rw [h]
  norm_num

/-! ### Running-mean lemmas for the user profile vector (C2) -/

theorem length_profileFold (p : List ℝ) (c : ℕ) (v : List ℝ) :
    (profileFold p c v).length = p.length := by
  simp [profileFold]

theorem profileFold_getD (p : List ℝ) (c : ℕ) (v : List ℝ) (i : ℕ) (h : i < p.length) :
    (profileFold p c v).getD i 0 =
      (p.getD i 0 * (c : ℝ) + v.getD i 0) / ((c : ℝ) + 1) := by
  have h1 : i < (profileFold p c v).length := by rwa [length_profileFold]
  rw [List.getD_eq_getElem _ _ h1, List.getD_eq_getElem _ _ h]
  simp [profileFold, List.getElem_enum]

theorem foldl_updateUserProfile_mean (D : ℕ) :
    ∀ (rest : List (List ℝ)) (vs : VectorState) (p : List ℝ) (n : ℕ), 0 < n →
      vs.profile = some (p, n) → p.length = D →
      (∀ v ∈ rest, List.length v = D) →
      ∃ q, (rest.foldl updateUserProfile vs).profile = some (q, n + rest.length) ∧
        q.length = D ∧
        ∀ i < D, q.getD i 0 =
          (p.getD i 0 * (n : ℝ) + (rest.map (fun v => v.getD i 0)).sum) /
            ((n : ℝ) + rest.length) := by
  intro rest
  induction rest with
  | nil =>
    intro vs p n hn hprof hlen _
    refine ⟨p, by simpa using hprof, hlen, ?_⟩
    intro i _
    have hcast : ((n : ℝ)) ≠ 0 := Nat.cast_ne_zero.mpr (by omega)
    simp [mul_div_assoc, div_self hcast]
  | cons v rest ih =>
    intro vs p n hn hprof hlen hall
    have hv : v.length = D := hall v (by simp)
    have hstep : (updateUserProfile vs v).profile = some (profileFold p n v, n + 1) := by
      simp [updateUserProfile, hprof]
    obtain ⟨q, hq, hqlen, hqcoord⟩ := ih (updateUserProfile vs v) (profileFold p n v) (n + 1)
      (by omega) hstep (by rw [length_profileFold, hlen]) (fun u hu => hall u (by simp [hu]))
    refine ⟨q, ?_, hqlen, ?_⟩
    · rw [List.foldl_cons, hq, List.length_cons,
        show n + 1 + rest.length = n + (rest.length + 1) from by omega]
    · intro i hi
      have hcoord := hqcoord i hi
      have hip : i < p.length := by omega
      rw [profileFold_getD p n v i hip] at hcoord
      have hcast : ((n : ℝ) + 1) ≠ 0 := by positivity
      rw [hcoord]
      simp only [List.map_cons, List.sum_cons, List.length_cons]
      push_cast
      rw [div_mul_cancel₀ _ hcast]
      ring

/-- C2: starting with no profile row, folding a non-empty sequence of liked
item embeddings of common dimension `D` through `updateUserProfile` leaves a
stored profile vector of dimension `D` whose `i`-th coordinate is the mean of
the `i`-th coordinates of the embeddings, with count equal to the number of
embeddings. -/
theorem updateUserProfile_running_mean (vs0 : VectorState) (h0 : vs0.profile = none)
    (vecs : List (List ℝ)) (D : ℕ) (hD : ∀ v ∈ vecs, List.length v = D)
    (hne : vecs ≠ []) :
    ∃ q, (vecs.foldl updateUserProfile vs0).profile = some (q, vecs.length) ∧
      q.length = D ∧
      ∀ i < D, q.getD i 0 = (vecs.map (fun v => v.getD i 0)).sum / (vecs.length : ℝ) := by
  cases vecs with
  | nil => exact absurd rfl hne
  | cons v rest =>
    have hstep : (updateUserProfile vs0 v).profile = some (v, 1) := by
      simp [updateUserProfile, h0]
    obtain ⟨q, hq, hqlen, hqcoord⟩ := foldl_updateUserProfile_mean D rest
      (updateUserProfile vs0 v) v 1 (by omega) hstep (hD v (by simp))
      (fun u hu => hD u (by simp [hu]))
    refine ⟨q, ?_, hqlen, ?_⟩
    · rw [List.foldl_cons, hq, List.length_cons,
        show 1 + rest.length = rest.length + 1 from by omega]
    · intro i hi
      have := hqcoord i hi
      rw [this]
      simp only [List.map_cons, List.sum_cons, List.length_cons]
      push_cast
      ring_nf

/-- C2 witness: two likes with embeddings `[1, 3]` and `[3, 5]` leave the
profile `[2, 4]` with count 2. -/
theorem updateUserProfile_running_mean_witness :
    ∃ q, ((([[1, 3], [3, 5]] : List (List ℝ)).foldl updateUserProfile
        ⟨[], none⟩).profile = some (q, 2) ∧
      q.length = 2 ∧
      ∀ i < 2, q.getD i 0 =
        (([[1, 3], [3, 5]] : List (List ℝ)).map (fun v => v.getD i 0)).sum / (2 : ℝ)) := by
  have h := updateUserProfile_running_mean ⟨[], none⟩ rfl [[1, 3], [3, 5]] 2
    (by intro v hv; simp at hv; rcases hv with h | h <;> simp [h]) (by simp)
  obtain ⟨q, hq, hqlen, hqcoord⟩ := h
  exact ⟨q, by simpa using hq, hqlen, by simpa using hqcoord⟩

/-! ### The recorded-preference / scoring key mismatch (C3) -/

/-- C3 (evaluation at the failing input): a like on `v1` succeeds and
records the preference entry `(scene_type, indoor)` with score 1 — which is
exactly the attribute pair `extractFeaturesFromVideo` yields for the
identically-featured item `v2` — yet `calculateVideoPreferenceScore` of `v2`
is 0, because the scorer looks `scene_type` up in the raw `ai_features`
object, whose key is `primary_scene_type`. The recorded entry can never
match, against the spec's account of `matchScore`. -/
theorem calculateVideoPreferenceScore_key_mismatch :
    (processFeedback defaultConfig c3Db c3Vs "v1" "like").1 = true ∧
    lookupPref (processFeedback defaultConfig c3Db c3Vs "v1" "like").2.1.prefs
      "scene_type" "indoor" = some (1, 1) ∧
    extractFeaturesFromVideo (some c3Obj) = [("scene_type", "indoor")] ∧
    calculateVideoPreferenceScore
      (processFeedback defaultConfig c3Db c3Vs "v1" "like").2.1 "v2" = 0 := by
  refine ⟨?_, ?_, ?_, ?_⟩ <;>
    simp [processFeedback, getVideoFeatures, c3Db, c3Obj, c3Vs, extractFeaturesFromVideo,
      jsGet, objAssign, updateUserPreference, lookupPref, calculateVideoPreferenceScore,
      prefScoreStep, defaultConfig, getVector, List.find?]

/-! ### Feedback-processor guards and frame conditions (C5, C6, C9) -/

/-- C5: feedback on an item with no features row, or with a features row
whose `ai_features` column is NULL, fails with `false` and leaves both the
preference database and the vector store unchanged, for any feedback type. -/
theorem processFeedback_no_features (cfg : Config) (db : DbState) (vs : VectorState)
    (aweme_id feedbackType : String)
    (h : getVideoFeatures db aweme_id = none ∨ getVideoFeatures db aweme_id = some none) :
    processFeedback cfg db vs aweme_id feedbackType = (false, db, vs) := by
  rcases h with h | h <;> simp [processFeedback, h]

/-- C5 witness: a like on an item unknown to an empty database fails and
changes nothing. -/
theorem processFeedback_no_features_witness :
    processFeedback defaultConfig ⟨[], []⟩ ⟨[], none⟩ "x" "like" =
      (false, ⟨[], []⟩, ⟨[], none⟩) :=
  processFeedback_no_features defaultConfig ⟨[], []⟩ ⟨[], none⟩ "x" "like" (Or.inl rfl)

/-- C6: for an item with stored features, a dislike returns true and leaves
the vector store — profile vector and count included — unchanged; a like on
an item with no stored embedding also returns true and leaves the vector
store unchanged. The preference-table update still takes place either way. -/
theorem processFeedback_vector_frame (cfg : Config) (db : DbState) (vs : VectorState)
    (aweme_id : String) (o : AiObj)
    (hfeat : getVideoFeatures db aweme_id = some (some o)) :
    ((processFeedback cfg db vs aweme_id "dislike").1 = true ∧
      (processFeedback cfg db vs aweme_id "dislike").2.2 = vs) ∧
    (getVector vs aweme_id = none →
      (processFeedback cfg db vs aweme_id "like").1 = true ∧
      (processFeedback cfg db vs aweme_id "like").2.2 = vs) := by
  constructor
  · simp [processFeedback, hfeat]
  · intro hvec
    simp [processFeedback, hfeat, hvec]

/-- C6 witness: an item with features but no stored embedding, over an empty
vector store — both the dislike and the like leave the store unchanged and
report success. -/
theorem processFeedback_vector_frame_witness :
    ((processFeedback defaultConfig
        ⟨[("a", some [("primary_scene_type", AiVal.str "indoor")])], []⟩
        ⟨[], none⟩ "a" "dislike").1 = true ∧
      (processFeedback defaultConfig
        ⟨[("a", some [("primary_scene_type", AiVal.str "indoor")])], []⟩
        ⟨[], none⟩ "a" "dislike").2.2 = ⟨[], none⟩) ∧
    ((processFeedback defaultConfig
        ⟨[("a", some [("primary_scene_type", AiVal.str "indoor")])], []⟩
        ⟨[], none⟩ "a" "like").1 = true ∧
      (processFeedback defaultConfig
        ⟨[("a", some [("primary_scene_type", AiVal.str "indoor")])], []⟩
        ⟨[], none⟩ "a" "like").2.2 = ⟨[], none⟩) := by
  have h := processFeedback_vector_frame defaultConfig
    ⟨[("a", some [("primary_scene_type", AiVal.str "indoor")])], []⟩ ⟨[], none⟩ "a"
    [("primary_scene_type", AiVal.str "indoor")] (by simp [getVideoFeatures, List.find?])
  exact ⟨h.1, h.2 rfl⟩

/-- C9: any feedback type other than exactly `"like"` — `"dislike"` and
unknown strings alike — is processed as a dislike: every extracted attribute
pair is updated with the configured dislike weight, the vector store is
never touched, and the call returns true; the default dislike weight is -1. -/
theorem processFeedback_nonlike (cfg : Config) (db : DbState) (vs : VectorState)
    (aweme_id feedbackType : String) (o : AiObj)
    (ht : feedbackType ≠ "like")
    (hfeat : getVideoFeatures db aweme_id = some (some o)) :
    processFeedback cfg db vs aweme_id feedbackType =
      (true,
        { db with
            prefs := (extractFeaturesFromVideo (some o)).foldl
              (fun s kv => updateUserPreference s kv.1 kv.2 cfg.dislikeWeight) db.prefs },
        vs) ∧
    defaultConfig.dislikeWeight = -1 := by
  constructor
  · simp [processFeedback, hfeat, ht]
  · rfl

/-- C9 witness: the unknown feedback type `"meh"` on a featured item is
handled exactly as a dislike and reports success. -/
theorem processFeedback_nonlike_witness :
    processFeedback defaultConfig
        ⟨[("a", some [("primary_scene_type", AiVal.str "x")])], []⟩ ⟨[], none⟩ "a" "meh" =
      (true,
        ⟨[("a", some [("primary_scene_type", AiVal.str "x")])],
          (extractFeaturesFromVideo (some [("primary_scene_type", AiVal.str "x")])).foldl
            (fun s kv => updateUserPreference s kv.1 kv.2 defaultConfig.dislikeWeight) []⟩,
        ⟨[], none⟩) ∧
    defaultConfig.dislikeWeight = -1 := by
  have h := processFeedback_nonlike defaultConfig
    ⟨[("a", some [("primary_scene_type", AiVal.str "x")])], []⟩ ⟨[], none⟩ "a" "meh"
    [("primary_scene_type", AiVal.str "x")] (by simp) (by simp [getVideoFeatures, List.find?])
  exact h

/-! ### Cosine similarity bounds (C8) -/

theorem sum_sq_nonneg (l : List ℝ) : 0 ≤ (l.map (fun x => x ^ 2)).sum := by
  apply List.sum_nonneg
  intro x hx
  simp only [List.mem_map] at hx
  obtain ⟨y, _, rfl⟩ := hx
  positivity

theorem two_mul_le_aux (x y S A B : ℝ) (h : S ^ 2 ≤ A * B) (hA : 0 ≤ A) (hB : 0 ≤ B) :
    2 * (x * y) * S ≤ x ^ 2 * B + y ^ 2 * A := by
  rcases le_or_lt (2 * (x * y) * S) 0 with hle | hpos
  · exact hle.trans (by positivity)
  · have h1 : (2 * (x * y) * S) ^ 2 ≤ (x ^ 2 * B + y ^ 2 * A) ^ 2 := by
      nlinarith [sq_nonneg (x ^ 2 * B - y ^ 2 * A),
        mul_nonneg (mul_nonneg (sq_nonneg x) (sq_nonneg y)) (sub_nonneg.mpr h)]
    have h2 : 0 ≤ x ^ 2 * B + y ^ 2 * A := by positivity
    exact le_of_pow_le_pow_left₀ (by norm_num) h2 h1

theorem cs_step (x y S A B : ℝ) (h : S ^ 2 ≤ A * B) (hA : 0 ≤ A) (hB : 0 ≤ B) :
    (x * y + S) ^ 2 ≤ (x ^ 2 + A) * (y ^ 2 + B) := by
  have key := two_mul_le_aux x y S A B h hA hB
  nlinarith [key, h]

theorem list_inner_sq_le (a : List ℝ) : ∀ (b : List ℝ),
    ((List.zipWith (fun x y => x * y) a b).sum) ^ 2 ≤
      (a.map (fun x => x ^ 2)).sum * (b.map (fun x => x ^ 2)).sum := by
  induction a with
  | nil => intro b; simp
  | cons x xs ih =>
    intro b
    cases b with
    | nil => simp
    | cons y ys =>
      simp only [List.zipWith_cons_cons, List.sum_cons, List.map_cons]
      exact cs_step x y _ _ _ (ih ys) (sum_sq_nonneg xs) (sum_sq_nonneg ys)

theorem sum_sq_pos_of_mem_ne_zero (a : List ℝ) (x : ℝ) (hx : x ∈ a) (hne : x ≠ 0) :
    0 < (a.map (fun t => t ^ 2)).sum := by
  have h1 : x ^ 2 ∈ a.map (fun t => t ^ 2) := List.mem_map_of_mem _ hx
  have h2 : x ^ 2 ≤ (a.map (fun t => t ^ 2)).sum := by
    apply List.single_le_sum _ _ h1
    intro t ht
    simp only [List.mem_map] at ht
    obtain ⟨u, _, rfl⟩ := ht
    positivity
  have h3 : 0 < x ^ 2 := by positivity
  linarith

/-- C8 (cosine similarity, modelled from the spec since `aiAnalyzer.js` is
not among the provided sources): the similarity equals
`dot(a,b) / (‖a‖ * ‖b‖)` whenever both norms are nonzero, is exactly 0
whenever either norm is zero, and lies in `[-1, 1]` for any two non-zero
vectors. -/
theorem cosineSimilarity_bounds (a b : List ℝ) :
    ((Real.sqrt ((a.map (fun x => x ^ 2)).sum) = 0 ∨
        Real.sqrt ((b.map (fun x => x ^ 2)).sum) = 0) →
      cosineSimilarity a b = 0) ∧
    (Real.sqrt ((a.map (fun x => x ^ 2)).sum) ≠ 0 →
      Real.sqrt ((b.map (fun x => x ^ 2)).sum) ≠ 0 →
      cosineSimilarity a b =
        (List.zipWith (fun x y => x * y) a b).sum /
          (Real.sqrt ((a.map (fun x => x ^ 2)).sum) *
            Real.sqrt ((b.map (fun x => x ^ 2)).sum))) ∧
    ((∃ x ∈ a, x ≠ 0) → (∃ y ∈ b, y ≠ 0) →
      -1 ≤ cosineSimilarity a b ∧ cosineSimilarity a b ≤ 1) := by
  refine ⟨fun h => by simp [cosineSimilarity, h], fun ha hb => ?_, fun ha hb => ?_⟩
  · simp only [cosineSimilarity]
    rw [if_neg (by push_neg; exact ⟨ha, hb⟩)]
  · obtain ⟨x, hxa, hxne⟩ := ha
    obtain ⟨y, hyb, hyne⟩ := hb
    have hsa : 0 < (a.map (fun t => t ^ 2)).sum := sum_sq_pos_of_mem_ne_zero a x hxa hxne
    have hsb : 0 < (b.map (fun t => t ^ 2)).sum := sum_sq_pos_of_mem_ne_zero b y hyb hyne
    have hna : 0 < Real.sqrt ((a.map (fun t => t ^ 2)).sum) := Real.sqrt_pos.mpr hsa
    have hnb : 0 < Real.sqrt ((b.map (fun t => t ^ 2)).sum) := Real.sqrt_pos.mpr hsb
    have habs : |(List.zipWith (fun s t => s * t) a b).sum| ≤
        Real.sqrt ((a.map (fun t => t ^ 2)).sum) * Real.sqrt ((b.map (fun t => t ^ 2)).sum) := by
      have h1 := Real.abs_le_sqrt (list_inner_sq_le a b)
      rwa [Real.sqrt_mul hsa.le] at h1
    have hcos : cosineSimilarity a b =
        (List.zipWith (fun s t => s * t) a b).sum /
          (Real.sqrt ((a.map (fun t => t ^ 2)).sum) *
            Real.sqrt ((b.map (fun t => t ^ 2)).sum)) := by
      simp only [cosineSimilarity]
      rw [if_neg (by push_neg; exact ⟨hna.ne', hnb.ne'⟩)]
    have hpos : 0 < Real.sqrt ((a.map (fun t => t ^ 2)).sum) *
        Real.sqrt ((b.map (fun t => t ^ 2)).sum) := mul_pos hna hnb
    rw [hcos]
    constructor
    · rw [le_div_iff₀ hpos]
      have := abs_le.mp habs
      linarith [this.1]
    · rw [div_le_one hpos]
      exact (abs_le.mp habs).2

/-- C8 witness: for the non-zero vectors `[1]` and `[1]` the similarity is
within `[-1, 1]`. -/
theorem cosineSimilarity_bounds_witness :
    -1 ≤ cosineSimilarity [1] [1] ∧ cosineSimilarity [1] [1] ≤ 1 :=
  (cosineSimilarity_bounds [1] [1]).2.2 ⟨1, by simp, one_ne_zero⟩ ⟨1, by simp, one_ne_zero⟩

/-- Evaluation helper shared by the blending results: the similarity of the
one-dimensional vectors `[1]` and `[1]` is 1. -/
theorem cosineSimilarity_single_one : cosineSimilarity [1] [1] = 1 := by
  norm_num [cosineSimilarity, Real.sqrt_one]

/-! ### The blending formula and its zero-similarity fallback (C4, C7) -/

/-- C4 (amended): when the item has stored attributes, a stored embedding
and a user profile exists, and the cosine similarity of profile and
embedding is nonzero, the recommendation score is the blend
`tagScore * (1 - vectorWeight) + ((similarity + 1) * 5) * vectorWeight`.
When the similarity is exactly 0 the code falls back to the bare tag score
instead. -/
theorem getVideoRecommendationScore_blend (cfg : Config) (db : DbState) (vs : VectorState)
    (aweme_id : String) (o : AiObj) (u v : List ℝ) (c : ℕ)
    (hfeat : getVideoFeatures db aweme_id = some (some o))
    (hprof : vs.profile = some (u, c))
    (hvec : getVector vs aweme_id = some v)
    (hsim : cosineSimilarity u v ≠ 0) :
    getVideoRecommendationScore cfg db vs aweme_id =
      calculateVideoPreferenceScore db aweme_id * (1 - cfg.vectorWeight) +
        ((cosineSimilarity u v + 1) * 5) * cfg.vectorWeight := by
  simp [getVideoRecommendationScore, vectorScoreOf, getUserProfileVector, hprof, hvec, hsim]

/-- C4 counterexample: attributes, embedding and profile all exist, but
profile `[0, 1]` and embedding `[1, 0]` are orthogonal, so the similarity is
0 and the code returns the bare tag score 0 — while the claimed formula
yields `0 * 0.3 + ((0 + 1) * 5) * 0.7 = 7/2`. -/
theorem getVideoRecommendationScore_blend_cex :
    getVideoRecommendationScore defaultConfig ⟨[("a", some [])], []⟩
        ⟨[("a", [1, 0])], some ([0, 1], 1)⟩ "a" = 0 ∧
    calculateVideoPreferenceScore ⟨[("a", some [])], []⟩ "a" * (1 - defaultConfig.vectorWeight) +
        ((cosineSimilarity [0, 1] [1, 0] + 1) * 5) * defaultConfig.vectorWeight = 7 / 2 := by
  have hsim : cosineSimilarity [0, 1] [1, 0] = 0 := by
    simp [cosineSimilarity]
  have htag : calculateVideoPreferenceScore (⟨[("a", some [])], []⟩ : DbState) "a" = 0 := by
    simp [calculateVideoPreferenceScore, getVideoFeatures, List.find?]
  constructor
  · simp [getVideoRecommendationScore, vectorScoreOf, getUserProfileVector, getVector,
      List.find?, hsim, htag]
  · rw [hsim, htag]
    norm_num [defaultConfig]

/-- C4 witness: profile `[1]` and embedding `[1]` have similarity 1 ≠ 0, and
the score is the blended formula. -/
theorem getVideoRecommendationScore_blend_witness :
    getVideoRecommendationScore defaultConfig ⟨[("a", some [])], []⟩
        ⟨[("a", [1])], some ([1], 1)⟩ "a" =
      calculateVideoPreferenceScore ⟨[("a", some [])], []⟩ "a" * (1 - defaultConfig.vectorWeight) +
        ((cosineSimilarity [1] [1] + 1) * 5) * defaultConfig.vectorWeight :=
  getVideoRecommendationScore_blend defaultConfig ⟨[("a", some [])], []⟩
    ⟨[("a", [1])], some ([1], 1)⟩ "a" [] [1] [1] 1
    (by simp [getVideoFeatures, List.find?]) rfl (by simp [getVector, List.find?])
    (by rw [cosineSimilarity_single_one]; norm_num)

/-- C7 (amended): for an item with no stored attributes the tag score is 0,
so the recommendation score is 0 exactly when the vector half is 0 (either
vector missing, or similarity 0); when the similarity is nonzero the score
is the vector part `((similarity + 1) * 5) * vectorWeight` of the blend —
not 0 as claimed. -/
theorem getVideoRecommendationScore_no_features (cfg : Config) (db : DbState)
    (vs : VectorState) (aweme_id : String)
    (h : getVideoFeatures db aweme_id = none ∨ getVideoFeatures db aweme_id = some none) :
    (vectorScoreOf vs aweme_id = 0 → getVideoRecommendationScore cfg db vs aweme_id = 0) ∧
    (vectorScoreOf vs aweme_id ≠ 0 → getVideoRecommendationScore cfg db vs aweme_id =
      ((vectorScoreOf vs aweme_id + 1) * 5) * cfg.vectorWeight) := by
  have htag : calculateVideoPreferenceScore db aweme_id = 0 := by
    rcases h with h | h <;> simp [calculateVideoPreferenceScore, h]
  constructor
  · intro h0
    simp [getVideoRecommendationScore, htag, h0]
  · intro h0
    simp [getVideoRecommendationScore, htag, h0]

/-- C7 counterexample: an item with no stored attributes but a stored
embedding `[1]`, with profile `[1]` — the similarity is 1, and the score is
`0 * 0.3 + ((1 + 1) * 5) * 0.7 = 7`, not 0. -/
theorem getVideoRecommendationScore_no_features_cex :
    getVideoFeatures (⟨[], []⟩ : DbState) "a" = none ∧
    getVideoRecommendationScore defaultConfig ⟨[], []⟩
      ⟨[("a", [1])], some ([1], 1)⟩ "a" = 7 := by
  refine ⟨rfl, ?_⟩
  have hvec : vectorScoreOf (⟨[("a", [1])], some ([1], 1)⟩ : VectorState) "a" = 1 := by
    simp [vectorScoreOf, getUserProfileVector, getVector, List.find?, cosineSimilarity_single_one]
  simp [getVideoRecommendationScore, hvec, calculateVideoPreferenceScore, getVideoFeatures,
    defaultConfig]
  norm_num

/-- C7 witness: the same store with nonzero similarity — the score equals
the vector part of the blend. -/
theorem getVideoRecommendationScore_no_features_witness :
    getVideoRecommendationScore defaultConfig ⟨[], []⟩
        ⟨[("a", [1])], some ([1], 1)⟩ "a" =
      ((vectorScoreOf ⟨[("a", [1])], some ([1], 1)⟩ "a" + 1) * 5) * defaultConfig.vectorWeight := by
  refine (getVideoRecommendationScore_no_features defaultConfig ⟨[], []⟩
    ⟨[("a", [1])], some ([1], 1)⟩ "a" (Or.inl rfl)).2 ?_
  have hvec : vectorScoreOf (⟨[("a", [1])], some ([1], 1)⟩ : VectorState) "a" = 1 := by
    simp [vectorScoreOf, getUserProfileVector, getVector, List.find?, cosineSimilarity_single_one]
  rw [hvec]
  norm_num

/-! ### SQLite / MySQL backend equivalence (C10) -/

theorem mysql_updateUserPreference_eq (s : List PrefRow) (k v : String) (w : ℝ) :
    Mysql.updateUserPreference s k v w = updateUserPreference s k v w := by
  induction s with
  | nil => rfl
  | cons r rest ih =>
    rw [Mysql.updateUserPreference, updateUserPreference]
    split
    · rfl
    · rw [ih]

/-- C10: the SQLite backend (`db.js`) and the MySQL backend (`db_mysql.js`)
are equivalent: any sequence of `(key, value, weight)` preference updates
folded from any common starting table produces the same table, and
`calculateVideoPreferenceScore` returns the same score for every item in
every state. -/
theorem backends_equivalent :
    (∀ (s0 : List PrefRow) (updates : List (String × String × ℝ)),
      updates.foldl (fun s u => Mysql.updateUserPreference s u.1 u.2.1 u.2.2) s0 =
        updates.foldl (fun s u => updateUserPreference s u.1 u.2.1 u.2.2) s0) ∧
    (∀ (db : DbState) (aweme_id : String),
      Mysql.calculateVideoPreferenceScore db aweme_id =
        calculateVideoPreferenceScore db aweme_id) := by
  constructor
  · intro s0 updates
    induction updates generalizing s0 with
    | nil => rfl
    | cons u us ih =>
      rw [List.foldl_cons, List.foldl_cons, mysql_updateUserPreference_eq, ih]
  · intro db aweme_id
    rfl

end Douyin
